import Mathlib

/-!
# Verification of `performance_timer.py` (UIPerformanceTimer)

A shallow embedding of the `PerformanceTimer` class from
`src/performance_timer.py` and proofs about its behaviour.

Modelling conventions:
* Raw clock readings (`time.time()`) are rationals (`ℚ`); the code's numeric
  behaviour is modelled with exact arithmetic.  Python's `round(x, 1)` is
  modelled as round-half-even to the nearest multiple of `1/10`.
* The filesystem is a map from path to optional row list; a `None` entry means
  the file does not exist.  Opening with mode `'w'` replaces the contents,
  mode `'a'` appends (creating the file when absent).
* `print` output is collected in a `List String` result component.
* Mutation of the Python object is modelled by explicit state passing, and the
  one place where Python reference semantics matter (`records.copy()` returning
  a fresh list that shares its element dicts) is modelled by a small heap of
  list objects and dict objects.
* A fallible file write is modelled by a `writeOk : Bool` oracle: `false`
  means the `open`/`write` in `_write_to_csv` raises, in which case execution
  of `stop` aborts at that statement (Python exception propagation).
-/

namespace PerfTimer

/-! ## Decimal rendering of numbers (models Python `str` / `strftime` digits) -/

/-- The decimal digit character for `n % 10`. -/
def digitChar (n : ℕ) : Char := Char.ofNat (48 + n % 10)

/-- The decimal digits of `n`, most significant first. -/
def natDigits (n : ℕ) : List ℕ :=
  if _h : n < 10 then [n] else natDigits (n / 10) ++ [n % 10]
termination_by n
decreasing_by exact Nat.div_lt_self (by omega) (by omega)

/-- Decimal string of a natural number (models Python `str` on a nonnegative
`int`, and the digit groups produced by `strftime`). -/
def natStr (n : ℕ) : String := ⟨(natDigits n).map digitChar⟩

/-- Decimal string of an integer (models Python `str` on an `int`). -/
def intStr (z : ℤ) : String := (if z < 0 then "-" else "") ++ natStr z.natAbs

/-- Zero-padded two-digit field, as produced by `strftime` for `%m %d %H %M %S`. -/
def pad2 (n : ℕ) : String := if n < 10 then "0" ++ natStr n else natStr n

theorem natDigits_of_lt_ten {n : ℕ} (h : n < 10) : natDigits n = [n] := by
  rw [natDigits]; simp [h]

theorem natDigits_of_ge_ten {n : ℕ} (h : ¬ n < 10) :
    natDigits n = natDigits (n / 10) ++ [n % 10] := by
  rw [natDigits]; simp [h]

theorem length_mk_str (l : List Char) : (String.mk l).length = l.length := rfl

theorem natStr_length (n : ℕ) : (natStr n).length = (natDigits n).length := by
  simp [natStr, length_mk_str]

theorem natStr_length_one {n : ℕ} (h : n < 10) : (natStr n).length = 1 := by
  rw [natStr_length, natDigits_of_lt_ten h]; rfl

theorem natStr_length_two {n : ℕ} (h1 : 10 ≤ n) (h2 : n < 100) :
    (natStr n).length = 2 := by
  rw [natStr_length, natDigits_of_ge_ten (by omega),
    natDigits_of_lt_ten (show n / 10 < 10 by omega)]
  simp

theorem natStr_length_three {n : ℕ} (h1 : 100 ≤ n) (h2 : n < 1000) :
    (natStr n).length = 3 := by
  rw [natStr_length, natDigits_of_ge_ten (by omega)]
  have := natStr_length (n / 10)
  rw [natStr_length_two (by omega) (by omega)] at this
  simp [← this]

theorem natStr_length_four {n : ℕ} (h1 : 1000 ≤ n) (h2 : n < 10000) :
    (natStr n).length = 4 := by
  rw [natStr_length, natDigits_of_ge_ten (by omega)]
  have := natStr_length (n / 10)
  rw [natStr_length_three (by omega) (by omega)] at this
  simp [← this]

theorem pad2_length {n : ℕ} (h : n < 100) : (pad2 n).length = 2 := by
  unfold pad2
  split
  · rw [String.length_append, natStr_length_one (by omega)]; rfl
  · exact natStr_length_two (by omega) h

/-! ## Rounding (`PerformanceTimer._round_to_tenth`)

`round(timestamp, 1)` in Python rounds to the nearest multiple of `0.1`, ties
to an even last digit (banker's rounding); on our exact rationals this is
round-half-even of `10 * x` to an integer, divided by `10`. -/

/-- Round-half-even to the nearest integer (Python's `round` tie rule). -/
def roundHalfEven (x : ℚ) : ℤ :=
  if x - ⌊x⌋ < 1 / 2 then ⌊x⌋
  else if 1 / 2 < x - ⌊x⌋ then ⌊x⌋ + 1
  else if 2 ∣ ⌊x⌋ then ⌊x⌋ else ⌊x⌋ + 1

/-- Model of `PerformanceTimer._round_to_tenth(timestamp)`: `round(timestamp, 1)`. -/
def round_to_tenth (x : ℚ) : ℚ := (roundHalfEven (10 * x) : ℚ) / 10

theorem roundHalfEven_intCast (k : ℤ) : roundHalfEven (k : ℚ) = k := by
  simp [roundHalfEven, Int.floor_intCast]

theorem roundHalfEven_ge_floor (x : ℚ) : ⌊x⌋ ≤ roundHalfEven x := by
  unfold roundHalfEven; split_ifs <;> omega

theorem roundHalfEven_le_floor_add_one (x : ℚ) : roundHalfEven x ≤ ⌊x⌋ + 1 := by
  unfold roundHalfEven; split_ifs <;> omega

/-- The value `round_to_tenth x` is the integer `roundHalfEven (10 * x)` divided by ten. -/
theorem round_to_tenth_eq (x : ℚ) :
    round_to_tenth x = (roundHalfEven (10 * x) : ℚ) / 10 := rfl

/-- Rounding to a tenth fixes every exact multiple of one tenth. -/
theorem round_to_tenth_tenths (k : ℤ) :
    round_to_tenth ((k : ℚ) / 10) = (k : ℚ) / 10 := by
  have h : (10 : ℚ) * ((k : ℚ) / 10) = (k : ℚ) := by ring
  rw [round_to_tenth, h, roundHalfEven_intCast]

/-- The difference of two already-rounded values is itself a fixed point of the
rounding: re-rounding it (as `stop` does) is the identity. -/
theorem round_to_tenth_sub_rounded (a b : ℚ) :
    round_to_tenth (round_to_tenth a - round_to_tenth b) =
      round_to_tenth a - round_to_tenth b := by
  have h : round_to_tenth a - round_to_tenth b =
      ((roundHalfEven (10 * a) - roundHalfEven (10 * b) : ℤ) : ℚ) / 10 := by
    rw [round_to_tenth, round_to_tenth]; push_cast; ring
  rw [h, round_to_tenth_tenths]

/-! ## Civil calendar decomposition

`PerformanceTimer._format_timestamp` calls `datetime.fromtimestamp` and
`strftime('%Y-%m-%d %H:%M:%S')`.  We model the conversion from local epoch
seconds to calendar fields following CPython's `datetime._ord2ymd`
(successive divmods by 146097 / 36524 / 1461 / 365 days and a month table);
the local time zone enters as an integer offset `tz` in seconds. -/

/-- Cumulative days before each month in a non-leap year
(CPython `_DAYS_BEFORE_MONTH`). -/
def daysBeforeMonth (m : ℕ) : ℕ :=
  match m with
  | 1 => 0 | 2 => 31 | 3 => 59 | 4 => 90 | 5 => 120 | 6 => 151
  | 7 => 181 | 8 => 212 | 9 => 243 | 10 => 273 | 11 => 304 | 12 => 334
  | _ => 0

/-- Days in each month of a non-leap year (CPython `_DAYS_IN_MONTH`). -/
def daysInMonth (m : ℕ) : ℕ :=
  match m with
  | 1 => 31 | 2 => 28 | 3 => 31 | 4 => 30 | 5 => 31 | 6 => 30
  | 7 => 31 | 8 => 31 | 9 => 30 | 10 => 31 | 11 => 30 | 12 => 31
  | _ => 0

/-- Days preceding `month`, adjusted by one in a leap year after February. -/
def precedingDays (leap : Bool) (month : ℕ) : ℕ :=
  daysBeforeMonth month + (if 2 < month ∧ leap = true then 1 else 0)

/-- Month and day within a year from the zero-based day-of-year `r1`,
following CPython's estimate `(r1 + 50) >> 5` and its correction step. -/
def monthDay (leap : Bool) (r1 : ℕ) : ℕ × ℕ :=
  if r1 < precedingDays leap ((r1 + 50) / 32) then
    ((r1 + 50) / 32 - 1,
      r1 + 1 + (daysInMonth ((r1 + 50) / 32 - 1) +
        (if (r1 + 50) / 32 - 1 = 2 ∧ leap = true then 1 else 0)) -
        precedingDays leap ((r1 + 50) / 32))
  else ((r1 + 50) / 32, r1 - precedingDays leap ((r1 + 50) / 32) + 1)

/-- Year/month/day from the divmod chain of CPython's `_ord2ymd`. -/
def ymdOfPieces (n400 n100 n4 n1 r1 : ℕ) : ℕ × ℕ × ℕ :=
  if n1 = 4 ∨ n100 = 4 then
    (n400 * 400 + n100 * 100 + n4 * 4 + n1, 12, 31)
  else
    (n400 * 400 + n100 * 100 + n4 * 4 + n1 + 1,
      (monthDay (decide (n1 = 3) && (decide (n4 ≠ 24) || decide (n100 = 3))) r1).1,
      (monthDay (decide (n1 = 3) && (decide (n4 ≠ 24) || decide (n100 = 3))) r1).2)

/-- CPython `datetime._ord2ymd` on the zero-based ordinal `n`
(`n = 0` is 0001-01-01). -/
def ord2ymd (n : ℕ) : ℕ × ℕ × ℕ :=
  ymdOfPieces (n / 146097) (n % 146097 / 36524) (n % 146097 % 36524 / 1461)
    (n % 146097 % 36524 % 1461 / 365) (n % 146097 % 36524 % 1461 % 365)

theorem monthDay_bounds (leap : Bool) (r1 : ℕ) (h : r1 ≤ 364) :
    1 ≤ (monthDay leap r1).1 ∧ (monthDay leap r1).1 ≤ 12 ∧
    1 ≤ (monthDay leap r1).2 ∧ (monthDay leap r1).2 ≤ 31 := by
  unfold monthDay precedingDays
  have hm : 1 ≤ (r1 + 50) / 32 ∧ (r1 + 50) / 32 ≤ 12 := by omega
  generalize hg : (r1 + 50) / 32 = m at *
  obtain ⟨hm1, hm2⟩ := hm
  cases leap <;> interval_cases m <;>
    simp only [daysBeforeMonth, daysInMonth] <;> split_ifs <;> simp_all <;> omega

theorem ord2ymd_month_day_bounds (n : ℕ) :
    1 ≤ (ord2ymd n).2.1 ∧ (ord2ymd n).2.1 ≤ 12 ∧
    1 ≤ (ord2ymd n).2.2 ∧ (ord2ymd n).2.2 ≤ 31 := by
  unfold ord2ymd ymdOfPieces
  split
  · simp
  · have := monthDay_bounds
      (decide (n % 146097 % 36524 % 1461 / 365 = 3) &&
        (decide (n % 146097 % 36524 / 1461 ≠ 24) || decide (n % 146097 / 36524 = 3)))
      (n % 146097 % 36524 % 1461 % 365) (by omega)
    simpa using this

theorem ord2ymd_year_bounds (n : ℕ) (h1 : 719162 ≤ n) (h2 : n ≤ 766800) :
    1000 ≤ (ord2ymd n).1 ∧ (ord2ymd n).1 ≤ 9999 := by
  unfold ord2ymd ymdOfPieces
  split <;> simp <;> omega

/-- The calendar and clock fields used by `_format_timestamp` for timestamp
`x` (epoch seconds) under local-time offset `tz` (seconds):
`datetime.fromtimestamp(x)` decomposes the whole-second part of the local
timestamp, and the tenths digit is computed separately as
`int((x % 1) * 10)`. -/
structure DateTimeParts where
  year : ℕ
  month : ℕ
  day : ℕ
  hour : ℕ
  minute : ℕ
  second : ℕ
  tenth : ℕ

/-- Decomposition of a timestamp into `DateTimeParts`. -/
def fmtParts (tz : ℤ) (x : ℚ) : DateTimeParts :=
  { year := (ord2ymd ((⌊x⌋ + tz).fdiv 86400 + 719162).toNat).1
    month := (ord2ymd ((⌊x⌋ + tz).fdiv 86400 + 719162).toNat).2.1
    day := (ord2ymd ((⌊x⌋ + tz).fdiv 86400 + 719162).toNat).2.2
    hour := ((⌊x⌋ + tz).fmod 86400).toNat / 3600
    minute := ((⌊x⌋ + tz).fmod 86400).toNat % 3600 / 60
    second := ((⌊x⌋ + tz).fmod 86400).toNat % 60
    tenth := (⌊(x - ⌊x⌋) * 10⌋).toNat }

/-- Model of `PerformanceTimer._format_timestamp(timestamp)`:
`datetime.fromtimestamp(timestamp).strftime('%Y-%m-%d %H:%M:%S')` followed by
`'.'` and `int((timestamp % 1) * 10)`. -/
def format_timestamp (tz : ℤ) (x : ℚ) : String :=
  natStr (fmtParts tz x).year ++ "-" ++ pad2 (fmtParts tz x).month ++ "-" ++
    pad2 (fmtParts tz x).day ++ " " ++ pad2 (fmtParts tz x).hour ++ ":" ++
    pad2 (fmtParts tz x).minute ++ ":" ++ pad2 (fmtParts tz x).second ++ "." ++
    natStr (fmtParts tz x).tenth

/-- Model of `datetime.now().strftime('%Y%m%d_%H%M%S')` on local time `x`, used by
`export_records` to synthesize a file name. -/
def compactTimestamp (tz : ℤ) (x : ℚ) : String :=
  natStr (fmtParts tz x).year ++ pad2 (fmtParts tz x).month ++
    pad2 (fmtParts tz x).day ++ "_" ++ pad2 (fmtParts tz x).hour ++
    pad2 (fmtParts tz x).minute ++ pad2 (fmtParts tz x).second

theorem floor_natCast_div_ten (m : ℕ) : ⌊(m : ℚ) / 10⌋ = ((m / 10 : ℕ) : ℤ) := by
  have h10 : (0 : ℚ) < 10 := by norm_num
  rw [Int.floor_eq_iff]
  refine ⟨?_, ?_⟩
  · rw [le_div_iff₀ h10]
    exact_mod_cast Nat.div_mul_le_self m 10
  · rw [div_lt_iff₀ h10]
    exact_mod_cast (by omega : m < (m / 10 + 1) * 10)

theorem floor_fract_mul_ten (m : ℕ) :
    ⌊((m : ℚ) / 10 - ⌊(m : ℚ) / 10⌋) * 10⌋ = ((m % 10 : ℕ) : ℤ) := by
  obtain ⟨q, r, rfl, hr⟩ : ∃ q r, m = 10 * q + r ∧ r < 10 :=
    ⟨m / 10, m % 10, by omega, by omega⟩
  rw [floor_natCast_div_ten, show (10 * q + r) / 10 = q by omega,
    show (10 * q + r) % 10 = r by omega]
  have key : (((10 * q + r : ℕ) : ℚ) / 10 - (((q : ℕ) : ℤ) : ℚ)) * 10 =
      ((r : ℕ) : ℚ) := by push_cast; ring
  rw [key, Int.floor_natCast]

/-! ## Records, rows and the CSV header -/

/-- One completed measurement, as stored by `stop` in `self.records`:
a dict of five string fields. -/
structure Record where
  start_time : String
  end_time : String
  duration : String
  operation : String
  iteration : String
deriving DecidableEq

/-- The CSV row written for a record, both by `_write_to_csv` and by
`export_records`: the five fields in dict-key order. -/
def rowOf (r : Record) : List String :=
  [r.start_time, r.end_time, r.duration, r.operation, r.iteration]

/-- Header text of the start-time column (Japanese for "start time"). -/
def startTimeColumn : String := "開始時刻"

/-- Header text of the end-time column (Japanese for "end time"). -/
def endTimeColumn : String := "終了時刻"

/-- Header text of the duration column (Japanese for "duration (seconds)"). -/
def durationSecondsColumn : String := "所要時間(秒)"

/-- Header text of the operation column (Japanese for "operation"). -/
def operationColumn : String := "操作"

/-- Header text of the iteration-count column (Japanese for "count"). -/
def iterationCountColumn : String := "回数"

/-- The header row written by `_create_csv_header` and by `export_records`. -/
def csvHeader : List String :=
  [startTimeColumn, endTimeColumn, durationSecondsColumn, operationColumn,
    iterationCountColumn]

/-! ## Filesystem model -/

/-- A filesystem: for each path, `none` when the file does not exist, else the
list of CSV rows it contains. -/
def FS : Type := String → Option (List (List String))

/-- Model of `open(p, 'w')` followed by writing `rows`: creates or truncates. -/
def FS.writeFile (fs : FS) (p : String) (rows : List (List String)) : FS :=
  fun q => if q = p then some rows else fs q

/-- Model of `open(p, 'a')` followed by writing one row: appends, creating the file
when absent. -/
def FS.appendRow (fs : FS) (p : String) (row : List String) : FS :=
  fun q => if q = p then some ((fs p).getD [] ++ [row]) else fs q

/-- The empty filesystem (no file exists). -/
def emptyFS : FS := fun _ => none

theorem FS.writeFile_self (fs : FS) (p : String) (rows : List (List String)) :
    fs.writeFile p rows p = some rows := by
  simp [FS.writeFile]

theorem FS.writeFile_ne (fs : FS) (p q : String) (rows : List (List String))
    (h : q ≠ p) : fs.writeFile p rows q = fs q := by
  simp [FS.writeFile, h]

/-! ## Timer state and operations -/

/-- The mutable attributes of a `PerformanceTimer` instance. -/
structure TimerState where
  csv_filename : String
  start_time : Option ℚ
  end_time : Option ℚ
  operation : Option String
  iteration : Option ℤ
  records : List Record

/-- Model of `PerformanceTimer.__init__(csv_filename)`: initialize the attributes and
write the header iff no file exists at `csv_filename`. -/
def init (csv_filename : String) (fs : FS) : TimerState × FS :=
  (⟨csv_filename, none, none, none, none, []⟩,
    if (fs csv_filename).isSome then fs else fs.writeFile csv_filename [csvHeader])

/-- Model of Python `str` on a float that is an exact multiple of `0.1` (the only
floats the code converts: rounded durations). -/
def strOfFloatTenth (q : ℚ) : String :=
  (if q < 0 then "-" else "") ++ natStr ⌊|q|⌋.toNat ++ "." ++
    natStr ((⌊|q| * 10⌋).toNat % 10)

/-- Model of Python `str(self.iteration) if self.iteration is not None else ""`. -/
def strOfIteration (it : Option ℤ) : String :=
  match it with
  | some n => intStr n
  | none => ""

/-- Model of Python f-string interpolation of `self.operation : Optional[str]`
(`None` prints as `"None"`). -/
def strOfOptionStr (o : Option String) : String :=
  match o with
  | some s => s
  | none => "None"

/-- The status line printed by `start`. -/
def startMsg (operation formatted : String) : String :=
  "タイマー開始: " ++ operation ++ " (時刻: " ++ formatted ++ ")"

/-- The status line printed by `stop`. -/
def stopMsg (operation : Option String) (dur : ℚ) : String :=
  "タイマー停止: " ++ strOfOptionStr operation ++ " (所要時間: " ++
    strOfFloatTenth dur ++ "秒)"

/-- The warning printed by `stop` when no measurement is pending. -/
def warnMsg : String := "警告: start()が呼ばれていません"

/-- Model of `PerformanceTimer.start(operation, iteration)` at current time `now`:
round the clock reading, store it with the label and iteration (silently
replacing any pending measurement), clear `end_time`, print a status line.
No file I/O. -/
def start (tz : ℤ) (s : TimerState) (now : ℚ) (operation : String)
    (iteration : Option ℤ) : TimerState × List String :=
  ({ s with start_time := some (round_to_tenth now)
            iteration := iteration
            operation := some operation
            end_time := none },
    [startMsg operation (format_timestamp tz (round_to_tenth now))])

/-- Result of a `stop` call: the returned value (`Except.error` models a
propagated I/O fault), the state after the call, the filesystem after the
call, and the printed lines. -/
structure StopResult where
  result : Except Unit (Option ℚ)
  state : TimerState
  fs : FS
  printed : List String

/-- Model of `PerformanceTimer.stop()` at current time `now`.  `writeOk = false` means
the file append in `_write_to_csv` raises; execution then stops there, after
the record was appended to `self.records` but before the pending fields are
reset. -/
def stop (tz : ℤ) (now : ℚ) (writeOk : Bool) (s : TimerState) (fs : FS) :
    StopResult :=
  match s.start_time with
  | none => ⟨.ok none, s, fs, [warnMsg]⟩
  | some st =>
    let en := round_to_tenth now
    let dur := round_to_tenth (en - st)
    let record : Record :=
      { start_time := format_timestamp tz st
        end_time := format_timestamp tz en
        duration := strOfFloatTenth dur
        operation := s.operation.getD ""
        iteration := strOfIteration s.iteration }
    let s1 : TimerState :=
      { s with end_time := some en, records := s.records ++ [record] }
    if writeOk then
      ⟨.ok (some dur),
        { s1 with start_time := none, end_time := none, operation := none,
                  iteration := none },
        fs.appendRow s.csv_filename (rowOf record),
        [stopMsg s.operation dur]⟩
    else ⟨.error (), s1, fs, [stopMsg s.operation dur]⟩

/-- Model of `PerformanceTimer.get_all_records()` (value level): the history list. -/
def get_all_records (s : TimerState) : List Record := s.records

/-- Model of `PerformanceTimer.clear_records()`: `self.records.clear()`. -/
def clear_records (s : TimerState) : TimerState := { s with records := [] }

/-- The file name `export_records` synthesizes when none is supplied. -/
def exportFileName (tz : ℤ) (now : ℚ) : String :=
  "performance_export_" ++ compactTimestamp tz now ++ ".csv"

/-- Model of `PerformanceTimer.export_records(filename)` at local time `now`:
pick the destination (`if not filename:` also catches the empty string),
open it with mode `'w'`, write the header and one row per record, print a
confirmation.  `self.records` is only read. -/
def export_records (s : TimerState) (fs : FS) (filename : Option String)
    (tz : ℤ) (now : ℚ) : TimerState × FS × String × List String :=
  let fname := match filename with
    | none => exportFileName tz now
    | some f => if f = "" then exportFileName tz now else f
  (s, fs.writeFile fname ([csvHeader] ++ s.records.map rowOf), fname,
    ["記録を " ++ fname ++ " にエクスポートしました"])

/-! ## Reference-semantics model of `get_all_records`

`get_all_records` returns `self.records.copy()`.  A Python list copy is a new
list object whose elements are the *same* dict references.  We model list
objects and dict objects in a small heap to settle what caller-side mutation
can and cannot reach. -/

/-- Heap of Python objects: list objects (holding dict addresses) and record
dicts.  An address is an index; allocation appends. -/
structure PyHeap where
  lists : List (List ℕ)
  dicts : List Record

/-- In-place mutation of the list object at address `a` (e.g. `append`,
`remove`, index assignment — any list-level change). -/
def PyHeap.setList (h : PyHeap) (a : ℕ) (v : List ℕ) : PyHeap :=
  { h with lists := h.lists.set a v }

/-- In-place mutation of the record dict at address `a`
(e.g. `rec['duration'] = ...`). -/
def PyHeap.setDict (h : PyHeap) (a : ℕ) (v : Record) : PyHeap :=
  { h with dicts := h.dicts.set a v }

/-- The element addresses of the list object at `a`. -/
def PyHeap.elems (h : PyHeap) (a : ℕ) : List ℕ := h.lists.getD a []

/-- The records a list object at `a` denotes, dereferencing each element. -/
def PyHeap.derefList (h : PyHeap) (a : ℕ) : List (Option Record) :=
  (h.elems a).map fun d => h.dicts.get? d

/-- Model of `self.records.copy()` as performed by `get_all_records`: allocate a fresh
list object with the same element addresses and return its address. -/
def copyRecords (h : PyHeap) (selfList : ℕ) : PyHeap × ℕ :=
  ({ h with lists := h.lists ++ [h.elems selfList] }, h.lists.length)

theorem copy_dicts (h : PyHeap) (a : ℕ) : (copyRecords h a).1.dicts = h.dicts :=
  rfl

theorem setList_dicts (h : PyHeap) (a : ℕ) (v : List ℕ) :
    (h.setList a v).dicts = h.dicts := rfl

theorem getD_append_of_lt {α : Type} (l l' : List α) (i : ℕ) (d : α)
    (h : i < l.length) : (l ++ l').getD i d = l.getD i d := by
  induction l generalizing i with
  | nil => simp at h
  | cons a t ih =>
    cases i with
    | zero => rfl
    | succ j => exact ih j (by simp at h; omega)

theorem set_append_length {α : Type} (l : List α) (x v : α) :
    (l ++ [x]).set l.length v = l ++ [v] := by
  induction l with
  | nil => rfl
  | cons a t ih => simp [ih]

theorem getD_append_at_length {α : Type} (l : List α) (x : α) (d : α) :
    (l ++ [x]).getD l.length d = x := by
  induction l with
  | nil => rfl
  | cons a t ih => simp [ih]

/-- The fresh list object `copy` returns holds exactly the element addresses
of the internal list. -/
theorem copy_elems (h : PyHeap) (a : ℕ) :
    (copyRecords h a).1.elems (copyRecords h a).2 = h.elems a := by
  simp only [copyRecords, PyHeap.elems]
  exact getD_append_at_length _ _ _

/-! ## Claim theorems -/

/-- A convenient concrete session over an empty filesystem, used by
witnesses: construction against a non-existent `performance_log.csv`. -/
def freshSession : TimerState × FS := init "performance_log.csv" emptyFS

/-- C1: for a pending measurement started at raw time `t0` and stopped at raw
time `t1 ≥ t0`, the duration `stop` returns and stores in the record equals
`round(t1, 1) - round(t0, 1)` exactly — the difference of the two endpoint
values each rounded to one tenth (the re-rounding `stop` applies to the
difference is the identity), not an independently rounded difference. -/
theorem stop_duration_is_diff_of_rounded (s : TimerState) (fs : FS) (tz : ℤ)
    (t0 t1 : ℚ) (op : String) (it : Option ℤ) (_h : t0 ≤ t1) :
    (stop tz t1 true (start tz s t0 op it).1 fs).result =
      .ok (some (round_to_tenth t1 - round_to_tenth t0)) ∧
    ∃ rec,
      (stop tz t1 true (start tz s t0 op it).1 fs).state.records =
        s.records ++ [rec] ∧
      rec.duration = strOfFloatTenth (round_to_tenth t1 - round_to_tenth t0) := by
  refine ⟨?_, ⟨_, rfl, ?_⟩⟩
  · show Except.ok (some (round_to_tenth (round_to_tenth t1 - round_to_tenth t0))) = _
    rw [round_to_tenth_sub_rounded]
  · show strOfFloatTenth (round_to_tenth (round_to_tenth t1 - round_to_tenth t0)) = _
    rw [round_to_tenth_sub_rounded]

/-- Witness for C1 at `t0 = 1`, `t1 = 2` on a fresh session. -/
theorem stop_duration_is_diff_of_rounded_w :
    (1 : ℚ) ≤ 2 ∧
    ((stop 0 2 true (start 0 freshSession.1 1 "" none).1 freshSession.2).result =
        .ok (some (round_to_tenth 2 - round_to_tenth 1)) ∧
      ∃ rec,
        (stop 0 2 true (start 0 freshSession.1 1 "" none).1
              freshSession.2).state.records =
          freshSession.1.records ++ [rec] ∧
        rec.duration = strOfFloatTenth (round_to_tenth 2 - round_to_tenth 1)) :=
  ⟨by norm_num,
    stop_duration_is_diff_of_rounded freshSession.1 freshSession.2 0 1 2 "" none
      (by norm_num)⟩

/-- C4: calling `stop` on a session with no pending measurement returns the
`None` sentinel, prints only the warning line, appends no record, writes no
row, raises no fault, and leaves the whole session state and filesystem
unchanged. -/
theorem stop_without_start_is_noop (tz : ℤ) (now : ℚ) (writeOk : Bool)
    (s : TimerState) (fs : FS) (h : s.start_time = none) :
    stop tz now writeOk s fs = ⟨.ok none, s, fs, [warnMsg]⟩ := by
  unfold stop; rw [h]

/-- Witness for C4 on a freshly constructed session. -/
theorem stop_without_start_is_noop_w :
    freshSession.1.start_time = none ∧
    stop 0 5 true freshSession.1 freshSession.2 =
      ⟨.ok none, freshSession.1, freshSession.2, [warnMsg]⟩ :=
  ⟨rfl, stop_without_start_is_noop 0 5 true freshSession.1 freshSession.2 rfl⟩

/-- C7: `start` succeeds from every session state — idle or already timing —
and silently replaces the pending measurement with the new rounded start
time, label and iteration, clearing `end_time`; it touches neither the
history nor the log path, so at most one pending measurement ever exists. -/
theorem start_replaces_pending (tz : ℤ) (s : TimerState) (now : ℚ)
    (op : String) (it : Option ℤ) :
    (start tz s now op it).1.start_time = some (round_to_tenth now) ∧
    (start tz s now op it).1.operation = some op ∧
    (start tz s now op it).1.iteration = it ∧
    (start tz s now op it).1.end_time = none ∧
    (start tz s now op it).1.records = s.records ∧
    (start tz s now op it).1.csv_filename = s.csv_filename ∧
    (start tz s now op it).2 =
      [startMsg op (format_timestamp tz (round_to_tenth now))] :=
  ⟨rfl, rfl, rfl, rfl, rfl, rfl, rfl⟩

/-- The header row with the column identifiers as the specification literally
spells them (`start_time,end_time,duration_seconds,operation,iteration_count`). -/
def specHeaderNames : List String :=
  ["start_time", "end_time", "duration_seconds", "operation", "iteration_count"]

/-- Counterexample to C2 as stated: the header row the code writes does not
consist of the columns literally named `start_time`, `end_time`,
`duration_seconds`, `operation`, `iteration_count` — the source spells the
five header texts in Japanese. -/
theorem header_not_spec_spelling : csvHeader ≠ specHeaderNames := by decide

/-- C2 (amended): the header row written at construction and by
`export_records` names exactly five columns — start time, end time, duration
seconds, operation, iteration count, spelled with the source's Japanese
header texts — in that fixed order and cardinality, and each data row
carries the fields of a record in the same five positions. -/
theorem header_five_fixed_columns :
    csvHeader = [startTimeColumn, endTimeColumn, durationSecondsColumn,
      operationColumn, iterationCountColumn] ∧
    csvHeader.length = 5 ∧
    (∀ (p : String) (fs : FS), fs p = none → (init p fs).2 p = some [csvHeader]) ∧
    (∀ (s : TimerState) (fs : FS) (fo : Option String) (tz : ℤ) (now : ℚ),
      (export_records s fs fo tz now).2.1 (export_records s fs fo tz now).2.2.1 =
        some (csvHeader :: s.records.map rowOf)) ∧
    (∀ r : Record,
      rowOf r = [r.start_time, r.end_time, r.duration, r.operation,
        r.iteration] ∧ (rowOf r).length = 5) := by
  refine ⟨rfl, rfl, ?_, ?_, fun r => ⟨rfl, rfl⟩⟩
  · intro p fs h
    simp [init, h, FS.writeFile]
  · intro s fs fo tz now
    simp [export_records, FS.writeFile]

/-- Witness for C2: header written when constructing against an absent path. -/
theorem header_five_fixed_columns_w :
    emptyFS "performance_log.csv" = none ∧
    (init "performance_log.csv" emptyFS).2 "performance_log.csv" =
      some [csvHeader] :=
  ⟨rfl, header_five_fixed_columns.2.2.1 "performance_log.csv" emptyFS rfl⟩

/-- C6: the header is written at construction iff the log file does not
already exist — a non-existent path gets exactly one header row (and nothing
else) before any data row, an existing file is left completely untouched by
any further construction, and rows are appended after the existing
contents. -/
theorem header_iff_file_absent (p : String) (fs : FS) :
    (fs p = none →
      (init p fs).2 p = some [csvHeader] ∧
      ∀ q, q ≠ p → (init p fs).2 q = fs q) ∧
    (∀ c, fs p = some c → (init p fs).2 = fs) ∧
    (∀ row, (fs.appendRow p row) p = some ((fs p).getD [] ++ [row])) := by
  refine ⟨?_, ?_, ?_⟩
  · intro h
    constructor
    · simp [init, h, FS.writeFile]
    · intro q hq
      simp [init, h, FS.writeFile, hq]
  · intro c h
    simp [init, h]
  · intro row
    simp [FS.appendRow]

/-- Witness for C6: first construction against an absent path writes the
header; a second construction against the now-existing path changes
nothing. -/
theorem header_iff_file_absent_w :
    (init "performance_log.csv" emptyFS).2 "performance_log.csv" =
      some [csvHeader] ∧
    (init "performance_log.csv" (init "performance_log.csv" emptyFS).2).2 =
      (init "performance_log.csv" emptyFS).2 := by
  have h1 := (header_iff_file_absent "performance_log.csv" emptyFS).1 rfl
  refine ⟨h1.1, ?_⟩
  exact (header_iff_file_absent "performance_log.csv"
    (init "performance_log.csv" emptyFS).2).2.1 [csvHeader] h1.1

/-- C9: `start` validates nothing about the iteration argument — every
integer, zero and negatives included, is accepted, and the following `stop`
writes its decimal string verbatim as the fifth field of both the record and
the appended log row; only an absent iteration yields an empty fifth field.
In particular `0` renders as `"0"` and `-1` as `"-1"`. -/
theorem iteration_unvalidated (tz : ℤ) (s : TimerState) (fs : FS)
    (t0 t1 : ℚ) (op : String) (it : Option ℤ) :
    (∃ rec,
      (stop tz t1 true (start tz s t0 op it).1 fs).state.records =
        s.records ++ [rec] ∧
      rec.iteration = strOfIteration it ∧
      (rowOf rec).getD 4 "" = strOfIteration it ∧
      (stop tz t1 true (start tz s t0 op it).1 fs).fs s.csv_filename =
        some ((fs s.csv_filename).getD [] ++ [rowOf rec])) ∧
    strOfIteration (some 0) = "0" ∧
    strOfIteration (some (-1)) = "-1" ∧
    strOfIteration none = "" := by
  refine ⟨⟨_, rfl, rfl, rfl, ?_⟩, ?_, ?_, rfl⟩
  · show FS.appendRow fs s.csv_filename _ s.csv_filename = _
    simp [FS.appendRow]
  · simp [strOfIteration, intStr, natStr, natDigits]
    rfl
  · simp [strOfIteration, intStr, natStr, natDigits]
    rfl

/-- C10: `stop` is not atomic with respect to I/O failure — the record is
appended to `self.records` before the log write is attempted and the pending
fields are cleared only after the write succeeds, so when the append raises,
the history already holds the record while the pending start time, label and
iteration are still set (and the filesystem is unchanged). -/
theorem stop_io_failure_not_atomic (tz : ℤ) (now : ℚ) (s : TimerState)
    (fs : FS) (st : ℚ) (h : s.start_time = some st) :
    (∃ rec,
      (stop tz now false s fs).result = .error () ∧
      (stop tz now false s fs).state.records = s.records ++ [rec] ∧
      (stop tz now false s fs).state.start_time = some st ∧
      (stop tz now false s fs).state.operation = s.operation ∧
      (stop tz now false s fs).state.iteration = s.iteration ∧
      (stop tz now false s fs).fs = fs) ∧
    (stop tz now true s fs).state.start_time = none := by
  unfold stop
  rw [h]
  exact ⟨⟨_, rfl, rfl, rfl, rfl, rfl, rfl⟩, rfl⟩

/-- Witness for C10 on a session that has a pending measurement. -/
theorem stop_io_failure_not_atomic_w :
    ((start 0 freshSession.1 1 "load" (some 2)).1.start_time =
      some (round_to_tenth 1)) ∧
    ((∃ rec,
      (stop 0 2 false (start 0 freshSession.1 1 "load" (some 2)).1
        freshSession.2).result = .error () ∧
      (stop 0 2 false (start 0 freshSession.1 1 "load" (some 2)).1
          freshSession.2).state.records =
        (start 0 freshSession.1 1 "load" (some 2)).1.records ++ [rec] ∧
      (stop 0 2 false (start 0 freshSession.1 1 "load" (some 2)).1
          freshSession.2).state.start_time = some (round_to_tenth 1) ∧
      (stop 0 2 false (start 0 freshSession.1 1 "load" (some 2)).1
          freshSession.2).state.operation =
        (start 0 freshSession.1 1 "load" (some 2)).1.operation ∧
      (stop 0 2 false (start 0 freshSession.1 1 "load" (some 2)).1
          freshSession.2).state.iteration =
        (start 0 freshSession.1 1 "load" (some 2)).1.iteration ∧
      (stop 0 2 false (start 0 freshSession.1 1 "load" (some 2)).1
          freshSession.2).fs = freshSession.2) ∧
    (stop 0 2 true (start 0 freshSession.1 1 "load" (some 2)).1
        freshSession.2).state.start_time = none) :=
  ⟨rfl, stop_io_failure_not_atomic 0 2
    (start 0 freshSession.1 1 "load" (some 2)).1 freshSession.2
    (round_to_tenth 1) rfl⟩

/-- A sample completed record used in concrete counterexamples. -/
def sampleRecord : Record :=
  ⟨"2025-01-01 00:00:00.0", "2025-01-01 00:00:01.0", "1.0", "load", ""⟩

/-- A session whose log already holds a header and one data row. -/
def loggedState : TimerState :=
  ⟨"performance_log.csv", none, none, none, none, []⟩

/-- The filesystem holding that log. -/
def loggedFS : FS :=
  emptyFS.writeFile "performance_log.csv" [csvHeader, rowOf sampleRecord]

/-- Counterexample to C8 as stated: exporting with the primary log path as
destination truncates the primary log, so `export` does not always leave the
primary log file unchanged. -/
theorem export_to_log_path_overwrites :
    loggedState.csv_filename = "performance_log.csv" ∧
    (export_records loggedState loggedFS (some "performance_log.csv") 0 0).2.1
        "performance_log.csv" ≠ loggedFS "performance_log.csv" := by
  refine ⟨rfl, ?_⟩
  simp [export_records, loggedState, loggedFS, FS.writeFile, emptyFS]

/-- C8 (amended): `export` creates or truncates (never appends to) the
destination, writes the five-column header and then one row per record in
insertion order, and leaves the in-memory history — and, provided the
destination differs from the primary log path, the primary log file —
unchanged; exporting after `clear_records` yields a file with the header row
and zero data rows while the primary log retains all previously written
rows. -/
theorem export_writes_snapshot (s : TimerState) (fs : FS)
    (filename : Option String) (tz : ℤ) (now : ℚ) :
    (export_records s fs filename tz now).1 = s ∧
    (export_records s fs filename tz now).2.1
        (export_records s fs filename tz now).2.2.1 =
      some ([csvHeader] ++ s.records.map rowOf) ∧
    (∀ q, q ≠ (export_records s fs filename tz now).2.2.1 →
      (export_records s fs filename tz now).2.1 q = fs q) ∧
    ((export_records s fs filename tz now).2.2.1 ≠ s.csv_filename →
      (export_records s fs filename tz now).2.1 s.csv_filename =
        fs s.csv_filename) ∧
    (export_records (clear_records s) fs filename tz now).2.1
        (export_records (clear_records s) fs filename tz now).2.2.1 =
      some [csvHeader] := by
  refine ⟨rfl, ?_, ?_, ?_, ?_⟩
  · exact FS.writeFile_self fs _ _
  · exact fun q hq => FS.writeFile_ne fs _ q _ hq
  · exact fun hne => FS.writeFile_ne fs _ s.csv_filename _ fun hh => hne hh.symm
  · exact FS.writeFile_self fs _ _

/-- Witness for C8 (amended) exporting a cleared session to a distinct path. -/
theorem export_writes_snapshot_w :
    ((export_records loggedState loggedFS (some "out.csv") 0 0).2.2.1 ≠
        loggedState.csv_filename →
      (export_records loggedState loggedFS (some "out.csv") 0 0).2.1
          loggedState.csv_filename = loggedFS loggedState.csv_filename) ∧
    ("export.csv" ≠ (export_records loggedState loggedFS (some "out.csv") 0 0).2.2.1 →
      (export_records loggedState loggedFS (some "out.csv") 0 0).2.1
          "export.csv" = loggedFS "export.csv") :=
  ⟨(export_writes_snapshot loggedState loggedFS (some "out.csv") 0 0).2.2.2.1,
    fun h => (export_writes_snapshot loggedState loggedFS
      (some "out.csv") 0 0).2.2.1 "export.csv" h⟩

/-- A second record value, differing from `sampleRecord`, written by the
caller into a shared dict. -/
def mutatedRecord : Record :=
  ⟨"2025-01-01 00:00:00.0", "2025-01-01 00:00:01.0", "999", "load", ""⟩

/-- The heap of a session holding one record dict (address 0) whose records
list object sits at address 0. -/
def sessionHeap : PyHeap := ⟨[[0]], [sampleRecord]⟩

/-- Counterexample to C3 as stated: `get_all_records` copies only the list,
not its elements.  Mutating an element dict reached through the returned
sequence changes the session's internal state, and a subsequent
`get_all_records` no longer returns the records seen before the mutation. -/
theorem get_all_records_element_mutation_leaks :
    ((copyRecords sessionHeap 0).1.elems (copyRecords sessionHeap 0).2).getD 0 1 =
      0 ∧
    ((copyRecords sessionHeap 0).1.setDict 0 mutatedRecord).derefList 0 ≠
      sessionHeap.derefList 0 ∧
    (copyRecords ((copyRecords sessionHeap 0).1.setDict 0 mutatedRecord) 0).1.derefList
        (copyRecords ((copyRecords sessionHeap 0).1.setDict 0 mutatedRecord) 0).2 ≠
      sessionHeap.derefList 0 := by
  refine ⟨rfl, ?_, ?_⟩ <;> decide

/-- C3 (amended): `get_all_records` returns a fresh sequence equal to the
internal history in insertion order; mutating the returned sequence itself
(the list object) leaves the session's internal state unchanged, and a
subsequent `get_all_records` returns the same records as before.  (The
element dicts, however, are shared, not copied.) -/
theorem get_all_records_fresh_list (h : PyHeap) (selfList : ℕ)
    (hv : selfList < h.lists.length) :
    (copyRecords h selfList).1.elems (copyRecords h selfList).2 =
      h.elems selfList ∧
    (copyRecords h selfList).1.derefList (copyRecords h selfList).2 =
      h.derefList selfList ∧
    (copyRecords h selfList).2 ≠ selfList ∧
    (∀ v,
      (((copyRecords h selfList).1.setList (copyRecords h selfList).2 v).derefList
          selfList = h.derefList selfList) ∧
      ((copyRecords ((copyRecords h selfList).1.setList (copyRecords h selfList).2 v)
            selfList).1.derefList
          (copyRecords ((copyRecords h selfList).1.setList (copyRecords h selfList).2 v)
            selfList).2 =
        h.derefList selfList)) := by
  have hselfset : ∀ v,
      ((copyRecords h selfList).1.setList (copyRecords h selfList).2 v).elems
        selfList = h.elems selfList := by
    intro v
    have hlists :
        ((copyRecords h selfList).1.setList (copyRecords h selfList).2 v).lists =
          h.lists ++ [v] := set_append_length _ _ _
    simp only [PyHeap.elems, hlists]
    exact getD_append_of_lt _ _ _ _ hv
  refine ⟨copy_elems h selfList, ?_, ?_, ?_⟩
  · simp only [PyHeap.derefList, copy_elems, copy_dicts]
  · show h.lists.length ≠ selfList
    omega
  · intro v
    constructor
    · simp only [PyHeap.derefList, hselfset, setList_dicts, copy_dicts]
    · simp only [PyHeap.derefList, copy_elems, copy_dicts, hselfset,
        setList_dicts]

/-- Witness for C3 (amended) on the one-record session heap. -/
theorem get_all_records_fresh_list_w :
    (0 : ℕ) < sessionHeap.lists.length ∧
    (copyRecords sessionHeap 0).1.elems (copyRecords sessionHeap 0).2 =
      sessionHeap.elems 0 :=
  ⟨by decide, (get_all_records_fresh_list sessionHeap 0 (by decide)).1⟩

theorem natCast_fdiv (m n : ℕ) :
    Int.fdiv (m : ℤ) (n : ℤ) = ((m / n : ℕ) : ℤ) :=
  (Int.ofNat_fdiv m n).symm

theorem natCast_fmod (m n : ℕ) :
    Int.fmod (m : ℤ) (n : ℤ) = ((m % n : ℕ) : ℤ) := by
  cases m with
  | zero => simp [Int.fmod]
  | succ k => rfl

/-- C5: the formatted string of a timestamp is produced by rounding to the
nearest tenth first and then decomposing the rounded value into calendar
date/time down to whole seconds, appending `'.'` and the single digit
`floor((timestamp mod 1) * 10)`; the result has the shape
`YYYY-MM-DD HH:MM:SS.D` with `D` the tenths digit of the rounded timestamp.
(Hypotheses keep the timestamp inside the era where `%Y` is four digits and
the local-time offset nonnegative.) -/
theorem format_rounds_then_decomposes (t : ℚ) (tz : ℤ)
    (ht0 : 0 ≤ t) (ht1 : t ≤ 4102444800) (htz0 : 0 ≤ tz) (htz1 : tz < 86400) :
    ∃ y mo d hh mi ss D : ℕ,
      format_timestamp tz (round_to_tenth t) =
        natStr y ++ "-" ++ pad2 mo ++ "-" ++ pad2 d ++ " " ++ pad2 hh ++ ":" ++
          pad2 mi ++ ":" ++ pad2 ss ++ "." ++ natStr D ∧
      (natStr y).length = 4 ∧ (pad2 mo).length = 2 ∧ (pad2 d).length = 2 ∧
      (pad2 hh).length = 2 ∧ (pad2 mi).length = 2 ∧ (pad2 ss).length = 2 ∧
      (natStr D).length = 1 ∧
      1 ≤ mo ∧ mo ≤ 12 ∧ 1 ≤ d ∧ d ≤ 31 ∧ hh < 24 ∧ mi < 60 ∧ ss < 60 ∧
      (D : ℤ) = ⌊(round_to_tenth t - ⌊round_to_tenth t⌋) * 10⌋ ∧
      ∃ k : ℕ, round_to_tenth t * 10 = (k : ℚ) ∧ D = k % 10 := by
  have hk0 : 0 ≤ roundHalfEven (10 * t) := by
    have h1 : (0 : ℤ) ≤ ⌊(10 : ℚ) * t⌋ := Int.floor_nonneg.mpr (by positivity)
    have h2 := roundHalfEven_ge_floor (10 * t)
    omega
  set m : ℕ := (roundHalfEven (10 * t)).toNat with hm
  have hmcast : ((m : ℕ) : ℤ) = roundHalfEven (10 * t) := Int.toNat_of_nonneg hk0
  have hx : round_to_tenth t = (m : ℚ) / 10 := by
    rw [round_to_tenth, ← hmcast]
    push_cast
    ring
  have hmub : m ≤ 41024448001 := by
    have h1 : (10 : ℚ) * t ≤ ((41024448000 : ℤ) : ℚ) := by push_cast; linarith
    have h2 : ⌊(10 : ℚ) * t⌋ ≤ 41024448000 := by
      have h3 := Int.floor_le_floor h1
      rwa [Int.floor_intCast] at h3
    have h4 := roundHalfEven_le_floor_add_one (10 * t)
    omega
  have hfloor : ⌊round_to_tenth t⌋ = ((m / 10 : ℕ) : ℤ) := by
    rw [hx]; exact floor_natCast_div_ten m
  set N : ℕ := m / 10 + tz.toNat with hN
  have htotal : ⌊round_to_tenth t⌋ + tz = ((N : ℕ) : ℤ) := by
    rw [hfloor]; omega
  have hfdiv : (⌊round_to_tenth t⌋ + tz).fdiv 86400 = ((N / 86400 : ℕ) : ℤ) := by
    rw [htotal]
    exact natCast_fdiv N 86400
  have hfmod : (⌊round_to_tenth t⌋ + tz).fmod 86400 = ((N % 86400 : ℕ) : ℤ) := by
    rw [htotal]
    exact natCast_fmod N 86400
  have hn : ((⌊round_to_tenth t⌋ + tz).fdiv 86400 + 719162).toNat =
      N / 86400 + 719162 := by
    rw [hfdiv]; omega
  have hsod : ((⌊round_to_tenth t⌋ + tz).fmod 86400).toNat = N % 86400 := by
    rw [hfmod]; omega
  have hDfloor : ⌊(round_to_tenth t - ⌊round_to_tenth t⌋) * 10⌋ =
      ((m % 10 : ℕ) : ℤ) := by
    rw [hx]
    exact floor_fract_mul_ten m
  have hyear : (fmtParts tz (round_to_tenth t)).year =
      (ord2ymd (N / 86400 + 719162)).1 := by
    simp only [fmtParts]; rw [hn]
  have hmonth : (fmtParts tz (round_to_tenth t)).month =
      (ord2ymd (N / 86400 + 719162)).2.1 := by
    simp only [fmtParts]; rw [hn]
  have hday : (fmtParts tz (round_to_tenth t)).day =
      (ord2ymd (N / 86400 + 719162)).2.2 := by
    simp only [fmtParts]; rw [hn]
  have hhour : (fmtParts tz (round_to_tenth t)).hour = N % 86400 / 3600 := by
    simp only [fmtParts]; rw [hsod]
  have hminute : (fmtParts tz (round_to_tenth t)).minute =
      N % 86400 % 3600 / 60 := by
    simp only [fmtParts]; rw [hsod]
  have hsecond : (fmtParts tz (round_to_tenth t)).second = N % 86400 % 60 := by
    simp only [fmtParts]; rw [hsod]
  have htenth : (fmtParts tz (round_to_tenth t)).tenth = m % 10 := by
    simp only [fmtParts]
    rw [hDfloor]; omega
  have hnb1 : 719162 ≤ N / 86400 + 719162 := by omega
  have hnb2 : N / 86400 + 719162 ≤ 766800 := by omega
  obtain ⟨hy1, hy2⟩ := ord2ymd_year_bounds _ hnb1 hnb2
  obtain ⟨hmo1, hmo2, hd1, hd2⟩ := ord2ymd_month_day_bounds (N / 86400 + 719162)
  refine ⟨(fmtParts tz (round_to_tenth t)).year,
    (fmtParts tz (round_to_tenth t)).month,
    (fmtParts tz (round_to_tenth t)).day,
    (fmtParts tz (round_to_tenth t)).hour,
    (fmtParts tz (round_to_tenth t)).minute,
    (fmtParts tz (round_to_tenth t)).second,
    (fmtParts tz (round_to_tenth t)).tenth,
    rfl, ?_, ?_, ?_, ?_, ?_, ?_, ?_, ?_, ?_, ?_, ?_, ?_, ?_, ?_, ?_,
    ⟨m, ?_, ?_⟩⟩
  · rw [hyear]; exact natStr_length_four (by omega) (by omega)
  · rw [hmonth]; exact pad2_length (by omega)
  · rw [hday]; exact pad2_length (by omega)
  · rw [hhour]; exact pad2_length (by omega)
  · rw [hminute]; exact pad2_length (by omega)
  · rw [hsecond]; exact pad2_length (by omega)
  · rw [htenth]; exact natStr_length_one (by omega)
  · rw [hmonth]; omega
  · rw [hmonth]; omega
  · rw [hday]; omega
  · rw [hday]; omega
  · rw [hhour]; omega
  · rw [hminute]; omega
  · rw [hsecond]; omega
  · rw [htenth, hDfloor]
  · rw [hx]
    field_simp
  · rw [htenth]

/-- Witness for C5 at `t = 1000000000.3` (2001-09-09 UTC), `tz = 0`. -/
theorem format_rounds_then_decomposes_w :
    (0 : ℚ) ≤ 1000000000 + 3 / 10 ∧
    ∃ y mo d hh mi ss D : ℕ,
      format_timestamp 0 (round_to_tenth (1000000000 + 3 / 10)) =
        natStr y ++ "-" ++ pad2 mo ++ "-" ++ pad2 d ++ " " ++ pad2 hh ++ ":" ++
          pad2 mi ++ ":" ++ pad2 ss ++ "." ++ natStr D ∧
      (natStr y).length = 4 ∧ (pad2 mo).length = 2 ∧ (pad2 d).length = 2 ∧
      (pad2 hh).length = 2 ∧ (pad2 mi).length = 2 ∧ (pad2 ss).length = 2 ∧
      (natStr D).length = 1 ∧
      1 ≤ mo ∧ mo ≤ 12 ∧ 1 ≤ d ∧ d ≤ 31 ∧ hh < 24 ∧ mi < 60 ∧ ss < 60 ∧
      (D : ℤ) = ⌊(round_to_tenth (1000000000 + 3 / 10) -
        ⌊round_to_tenth (1000000000 + 3 / 10)⌋) * 10⌋ ∧
      ∃ k : ℕ, round_to_tenth (1000000000 + 3 / 10) * 10 = (k : ℚ) ∧
        D = k % 10 :=
  ⟨by norm_num,
    format_rounds_then_decomposes (1000000000 + 3 / 10) 0 (by norm_num)
      (by norm_num) le_rfl (by norm_num)⟩

end PerfTimer
